import Mathlib

/-!
Verification of the GW-notebooks repository (Automation_Using_Globus_Flows
notebook and its variant). The notebooks drive one Globus flow run to
completion: they load pre-provisioned tokens from the GLOBUS_DATA
environment variable, define and deploy a static flow definition, build a
run input, run the flow, poll the status service in a
`while flow_status == 'ACTIVE'` loop with a fixed sleep, and finally
extract the access-rule id from the final payload. This file gives a
shallow embedding of those pieces and proves the spec claims about them.
-/

/-- JSON-like values, the shape of the notebook dictionaries
(flow definition parameters, flow input, flow action payloads). -/
inductive Json where
  | str : String → Json
  | num : Nat → Json
  | bool : Bool → Json
  | arr : List Json → Json
  | obj : List (String × Json) → Json

/-- Python exceptions raised by the dictionary accesses the notebooks
perform: a missing key raises KeyError, subscripting a non-dict (for
example the None returned by os.getenv) raises TypeError. -/
inductive PyErr where
  | keyError : String → PyErr
  | typeError : PyErr
deriving DecidableEq

/-- Python dictionary subscription `d[k]`: returns the value under key
`k`, raises KeyError when the key is absent and TypeError when the
subscripted value is not a dictionary. -/
def Json.get : Json → String → Except PyErr Json
  | Json.obj kvs, k =>
      match kvs.lookup k with
      | some v => Except.ok v
      | none => Except.error (PyErr.keyError k)
  | _, _ => Except.error PyErr.typeError

/-- String suffix test over the character list (the notebook placeholder
keys end in the two characters dot dollar). -/
def strEndsWith (s suf : String) : Bool := suf.data.isSuffixOf s.data

/-- String prefix test over the character list. -/
def strStartsWith (s pre : String) : Bool := pre.data.isPrefixOf s.data

/-! ## The poll loop (awaitCompletion)

Embedding of the notebook cell

```
flow_action = flows_client.run_flow(...)
flow_status = flow_action['status']
while flow_status == 'ACTIVE':
    time.sleep(pollInterval)
    flow_action = flows_client.flow_action_status(flow_id, flow_scope, flow_action_id)
    flow_status = flow_action['status']
print(json.dumps(flow_action.data, indent=2))
```

The remote status service is modelled as a stream `acts : Nat → FlowAction`:
`acts 0` is the response of `run_flow` and `acts (i+1)` is the response of
the i-th `flow_action_status` call. The loop is given fuel (a bound on the
number of iterations we are willing to unfold); the code itself has no such
bound, which is exactly what claim C4 is about: on an all-ACTIVE stream the
loop terminates for no fuel. -/

/-- One response of the remote flow service: the lifecycle status string the
loop branches on, and the rest of the payload. -/
structure FlowAction where
  status : String
  data : Json

/-- Observable outcome of one complete poll loop:
the final flow action held in the `flow_action` variable, how many status
values were obtained from the service in total (the `run_flow` response
plus one per `flow_action_status` call), how many `flow_action_status`
calls the loop itself issued, and the total time slept. -/
structure PollOutcome where
  action : FlowAction
  observations : Nat
  statusQueries : Nat
  slept : Nat

/-- The while loop body. `i` indexes the status currently held in
`flow_status`; each iteration sleeps `p`, issues one status query and moves
to the next response. `none` means the fuel ran out with the loop still
running. -/
def pollLoopAux (acts : Nat → FlowAction) (p : Nat) :
    Nat → Nat → Nat → Nat → Nat → Option PollOutcome
  | 0, i, obs, q, t =>
      if (acts i).status = "ACTIVE" then none
      else some ⟨acts i, obs, q, t⟩
  | fuel + 1, i, obs, q, t =>
      if (acts i).status = "ACTIVE" then
        pollLoopAux acts p fuel (i + 1) (obs + 1) (q + 1) (t + p)
      else some ⟨acts i, obs, q, t⟩

/-- The whole waiter: start from the `run_flow` response (one observation
already made, no loop query yet, nothing slept) and run the while loop. -/
def awaitCompletion (acts : Nat → FlowAction) (p fuel : Nat) : Option PollOutcome :=
  pollLoopAux acts p fuel 0 1 0 0

/-- Sleep length in the main notebook poll loop (`time.sleep(5)`). -/
def pollIntervalMain : Nat := 5

/-- Sleep length in the variant notebook poll loop (`time.sleep(2)`). -/
def pollIntervalVariant : Nat := 2

/-! ## Result field extraction

Embedding of
`access_rule_id = flow_action['details']['output']['SetPermission']['details']['access_id']`,
generalized over the step name and field exactly as the spec's
`extractResultField(result, stepName, field)`. -/

/-- Project `result['details']['output'][stepName]['details'][field]`. -/
def extractResultField (result : Json) (stepName field : String) : Except PyErr Json := do
  let d ← result.get "details"
  let o ← d.get "output"
  let s ← o.get stepName
  let sd ← s.get "details"
  sd.get field

/-- Synthetic final payload carrying the given step results under
`details.output`, the shape the notebook reads back from the service. -/
def mkFinalPayload (steps : List (String × Json)) : Json :=
  Json.obj [("details", Json.obj [("output", Json.obj steps)])]

/-- One step's result bag wrapped the way the service returns it:
the fields live under the step's own `details` key. -/
def mkStepEntry (bag : List (String × Json)) : Json :=
  Json.obj [("details", Json.obj bag)]

/-! ## The flow definition and flow input -/

/-- One state of the flow definition (an Action step). -/
structure FlowStep where
  comment : String
  type : String
  actionUrl : String
  actionScope : String
  parameters : Json
  resultPath : String
  waitTime : Option Nat
  next : Option String
  isEnd : Bool

/-- The flow definition document: a start marker and the named states. -/
structure FlowDefinition where
  comment : String
  startAt : String
  states : List (String × FlowStep)

/-- The `flow_definition` of the main notebook
(Automation_Using_Globus_Flows.ipynb). -/
def flow_definition : FlowDefinition :=
  { comment := "Move files to guest collection and set access permissions"
    startAt := "MoveFiles"
    states := [
      ("MoveFiles",
        { comment := "Transfer from Globus Tutorial Endpoint 1 to a guest collection on Petrel"
          type := "Action"
          actionUrl := "https://actions.automate.globus.org/transfer/transfer"
          actionScope := "https://auth.globus.org/scopes/actions.globus.org/transfer/transfer"
          parameters := Json.obj [
            ("source_endpoint_id.$", Json.str "$.input.source_endpoint_id"),
            ("destination_endpoint_id.$", Json.str "$.input.destination_endpoint_id"),
            ("transfer_items", Json.arr [Json.obj [
              ("source_path.$", Json.str "$.input.source_path"),
              ("destination_path.$", Json.str "$.input.destination_path"),
              ("recursive", Json.bool true)]])]
          resultPath := "$.MoveFiles"
          waitTime := some 60
          next := some "SetPermission"
          isEnd := false }),
      ("SetPermission",
        { comment := "Grant read permission on the data to the Tutorial users group"
          type := "Action"
          actionUrl := "https://actions.automate.globus.org/transfer/set_permission"
          actionScope := "https://auth.globus.org/scopes/actions.globus.org/transfer/set_permission"
          parameters := Json.obj [
            ("endpoint_id.$", Json.str "$.input.destination_endpoint_id"),
            ("path.$", Json.str "$.input.destination_path"),
            ("permissions", Json.str "r"),
            ("principal.$", Json.str "$.input.principal"),
            ("principal_type.$", Json.str "$.input.principal_type"),
            ("operation", Json.str "CREATE")]
          resultPath := "$.SetPermission"
          waitTime := none
          next := none
          isEnd := true })] }

/-- The `flow_definition` of the variant notebook (src/unnamed/part_000):
same two states, with an extra literal `sync_level` parameter and a longer
wait hint. -/
def flow_definition_variant : FlowDefinition :=
  { comment := "Move files to guest collection and set access permissions"
    startAt := "MoveFiles"
    states := [
      ("MoveFiles",
        { comment := "Transfer from Globus Tutorial Endpoint 1 to a guest collection on Petrel"
          type := "Action"
          actionUrl := "https://actions.automate.globus.org/transfer/transfer"
          actionScope := "https://auth.globus.org/scopes/actions.globus.org/transfer/transfer"
          parameters := Json.obj [
            ("source_endpoint_id.$", Json.str "$.input.source_endpoint_id"),
            ("destination_endpoint_id.$", Json.str "$.input.destination_endpoint_id"),
            ("sync_level", Json.str "exists"),
            ("transfer_items", Json.arr [Json.obj [
              ("source_path.$", Json.str "$.input.source_path"),
              ("destination_path.$", Json.str "$.input.destination_path"),
              ("recursive", Json.bool true)]])]
          resultPath := "$.MoveFiles"
          waitTime := some 3600
          next := some "SetPermission"
          isEnd := false }),
      ("SetPermission",
        { comment := "Grant read permission on the data to the Tutorial users group"
          type := "Action"
          actionUrl := "https://actions.automate.globus.org/transfer/set_permission"
          actionScope := "https://auth.globus.org/scopes/actions.globus.org/transfer/set_permission"
          parameters := Json.obj [
            ("endpoint_id.$", Json.str "$.input.destination_endpoint_id"),
            ("path.$", Json.str "$.input.destination_path"),
            ("permissions", Json.str "r"),
            ("principal.$", Json.str "$.input.principal"),
            ("principal_type.$", Json.str "$.input.principal_type"),
            ("operation", Json.str "CREATE")]
          resultPath := "$.SetPermission"
          waitTime := none
          next := none
          isEnd := true })] }

/-- Endpoint UUID constant from the notebooks
(Globus Tutorial Endpoint 1, the transfer source). -/
def source_endpoint : String := "ddb59aef-6d04-11e5-ba46-22000b92c6ec"

/-- Endpoint UUID constant from the notebooks
(Petrel Testbed, the transfer destination). -/
def destination_endpoint : String := "e56c36e4-1063-11e6-a747-22000bf2d559"

/-- Group UUID constant from the notebooks (Tutorial Users group). -/
def my_collaborators : String := "50b6a29c-63ac-11e4-8062-22000ab68755"

/-- The `flow_input` of the main notebook, as a function of the identity id
fetched from the Auth service (it only appears inside values, never in a
key). -/
def flow_input (identity_id : String) : Json :=
  Json.obj [("input", Json.obj [
    ("source_endpoint_id", Json.str source_endpoint),
    ("source_path", Json.str "/share/godata"),
    ("destination_endpoint_id", Json.str destination_endpoint),
    ("destination_path",
      Json.str ("/automate-tutorial/" ++ identity_id ++ "-shared-files/")),
    ("principal", Json.str my_collaborators),
    ("principal_type", Json.str "group")])]

/-- The `flow_input` of the variant notebook: fixed destination path and
the permission granted to the user identity itself. -/
def flow_input_variant (identity_id : String) : Json :=
  Json.obj [("input", Json.obj [
    ("source_path", Json.str "/share/godata"),
    ("destination_path", Json.str "/disthome-automate/"),
    ("source_endpoint_id", Json.str source_endpoint),
    ("destination_endpoint_id", Json.str destination_endpoint),
    ("principal", Json.str identity_id),
    ("principal_type", Json.str "identity")])]

/-! ## Structural validity of the flow definition (C6) -/

/-- The step names of a flow definition. -/
def stepKeys (d : FlowDefinition) : List String := d.states.map Prod.fst

/-- Every non-terminal step must carry a `Next` reference naming an
existing step; terminal (`End`) steps need none. -/
def nextRefsValid (d : FlowDefinition) : Bool :=
  d.states.all fun s =>
    if s.2.isEnd then true
    else
      match s.2.next with
      | some n => (stepKeys d).contains n
      | none => false

/-- Follow the deterministic `Next` chain from a step name, with fuel
bounding the walk. Returns the visited path when it ends at an `End` step. -/
def pathFrom (d : FlowDefinition) : Nat → String → Option (List String)
  | 0, _ => none
  | fuel + 1, name =>
      match d.states.lookup name with
      | none => none
      | some st =>
          if st.isEnd then some [name]
          else
            match st.next with
            | some n => (pathFrom d fuel n).map (fun l => name :: l)
            | none => none

/-- Structural validity of a flow definition: `StartAt` names exactly one
state, every non-terminal step's `Next` names an existing state, exactly
one state is marked `End`, and the chain from the start reaches it. -/
def structurallyValid (d : FlowDefinition) : Bool :=
  ((stepKeys d).filter (fun k => k == d.startAt)).length == 1
  && nextRefsValid d
  && ((d.states.filter (fun s => s.2.isEnd)).length == 1)
  && (pathFrom d d.states.length d.startAt).isSome

/-! ## Placeholder coverage (C7) -/

/-- Collect, from a worklist of key-value pairs, every value of an entry
whose key ends in the two characters dot dollar (the placeholder marker of
the flow definition language), descending into nested arrays and objects.
Fuel bounds the traversal; the concrete documents here are finite and
small. -/
def collectTargets (fuel : Nat) (items : List (String × Json)) : List String :=
  match fuel, items with
  | 0, _ => []
  | _ + 1, [] => []
  | fuel + 1, (k, v) :: rest =>
      (if strEndsWith k ".$" then
        match v with
        | Json.str s => [s]
        | _ => []
      else []) ++
      (match v with
       | Json.arr xs => collectTargets fuel (xs.map (fun x => ("", x)) ++ rest)
       | Json.obj kvs => collectTargets fuel (kvs ++ rest)
       | _ => collectTargets fuel rest)
termination_by structural fuel

/-- All placeholder target paths referenced by the `Parameters` of any step
of the definition. -/
def allPlaceholderTargets (d : FlowDefinition) : List String :=
  collectTargets 100 (d.states.map (fun s => (s.1, s.2.parameters)))

/-- The input key a placeholder path refers to: strip the 8-character
marker `$.input.` when present. -/
def inputKeyOf (p : String) : Option String :=
  if strStartsWith p "$.input." then some (p.drop 8) else none

/-- The keys available under the `input` key of the run input document. -/
def runInputKeys (input : Json) : List String :=
  match input with
  | Json.obj kvs =>
      match kvs.lookup "input" with
      | some (Json.obj inner) => inner.map Prod.fst
      | _ => []
  | _ => []

/-- Every placeholder referenced by the definition is a `$.input.*` path
whose key the run input provides under `input`. -/
def placeholdersCovered (d : FlowDefinition) (input : Json) : Bool :=
  (allPlaceholderTargets d).all fun p =>
    match inputKeyOf p with
    | some k => (runInputKeys input).contains k
    | none => false

/-! ## Token loading from GLOBUS_DATA (C8)

Embedding of
`tokens = pickle.loads(base64.b64decode(os.getenv('GLOBUS_DATA')))['tokens']`:
`os.getenv` yields `none` when the variable is absent, and
`base64.b64decode(None)` raises TypeError in Python, so the cell dies
before anything else runs. The base64+pickle decoding of a present value
is opaque remote-format detail and is passed in as a function (`none`
models a decode failure, also a raised exception). -/

/-- The remote calls the notebooks issue after the token-loading cell. -/
inductive RemoteCall where
  | userinfo : RemoteCall
  | deployFlow : RemoteCall
  | tokenExchange : RemoteCall
  | runFlow : RemoteCall
  | actionStatus : RemoteCall
  | deleteAclRule : RemoteCall
  | submitDelete : RemoteCall

/-- The token-loading step of cell 3. -/
def loadTokens (globusData : Option String) (decode : String → Option Json) :
    Except PyErr Json :=
  match globusData with
  | none => Except.error PyErr.typeError
  | some s =>
      match decode s with
      | none => Except.error PyErr.typeError
      | some j => j.get "tokens"

/-- The notebook session up to its remote calls: load the tokens, then
(only if that succeeded) proceed to the cells that talk to the remote
services. The second component is the trace of remote calls issued; an
uncaught exception in the token cell stops the run with an empty trace. -/
def notebookSession (globusData : Option String) (decode : String → Option Json) :
    Except PyErr Json × List RemoteCall :=
  match loadTokens globusData decode with
  | Except.error e => (Except.error e, [])
  | Except.ok tokens =>
      (Except.ok tokens,
       [RemoteCall.userinfo, RemoteCall.deployFlow, RemoteCall.tokenExchange,
        RemoteCall.runFlow, RemoteCall.actionStatus, RemoteCall.deleteAclRule,
        RemoteCall.submitDelete])

/-! ## The per-flow authorization cache (C10)

Embedding of the `saved_flow_scopes` dictionary, the
`if flow_scope not in saved_flow_scopes:` cell that performs a native-app
token exchange and stores the result, and the `get_flow_authorizer`
callback that reads the cached token back. -/

/-- The token record stored per scope. -/
structure TokenInfo where
  access_token : String
deriving DecidableEq

/-- The authorization cell: when the flow scope is already cached nothing
happens; otherwise one token exchange runs and its result is stored.
Returns the new cache and the number of token exchanges performed. -/
def authorize_flow_scope (saved : List (String × TokenInfo)) (flow_scope : String)
    (exchange : Unit → TokenInfo) : List (String × TokenInfo) × Nat :=
  if (saved.lookup flow_scope).isSome then (saved, 0)
  else (saved ++ [(flow_scope, exchange ())], 1)

/-- The `get_flow_authorizer` callback:
`saved_flow_scopes[flow_scope]['access_token']`, raising KeyError when the
scope was never cached. It only reads; the cache is untouched. -/
def get_flow_authorizer (saved : List (String × TokenInfo)) (flow_scope : String) :
    Except PyErr String :=
  match saved.lookup flow_scope with
  | some t => Except.ok t.access_token
  | none => Except.error (PyErr.keyError flow_scope)

/-! ## Helper lemmas about the poll loop -/

/-- Core run lemma: if from position `i` the stream answers ACTIVE for `n`
responses and then a terminal status, the loop body runs exactly `n`
iterations (for any fuel of at least `n`), accumulating `n` observations,
`n` queries and `n` sleeps on top of the starting counters. -/
theorem pollLoopAux_run (acts : Nat → FlowAction) (p : Nat) :
    ∀ n i obs q t fuel : Nat,
      (∀ j, j < n → (acts (i + j)).status = "ACTIVE") →
      (acts (i + n)).status ≠ "ACTIVE" →
      n ≤ fuel →
      pollLoopAux acts p fuel i obs q t =
        some ⟨acts (i + n), obs + n, q + n, t + n * p⟩ := by
  intro n
  induction n with
  | zero =>
      intro i obs q t fuel hrun hterm hle
      have hterm2 : (acts i).status ≠ "ACTIVE" := by simpa using hterm
      cases fuel with
      | zero => simp [pollLoopAux, hterm2]
      | succ f => simp [pollLoopAux, hterm2]
  | succ m ih =>
      intro i obs q t fuel hrun hterm hle
      cases fuel with
      | zero => omega
      | succ f =>
          have h0 : (acts i).status = "ACTIVE" := by
            simpa using hrun 0 (Nat.succ_pos m)
          have hrun2 : ∀ j, j < m → (acts (i + 1 + j)).status = "ACTIVE" := by
            intro j hj
            have e : i + 1 + j = i + (j + 1) := by omega
            rw [e]
            exact hrun (j + 1) (by omega)
          have hterm2 : (acts (i + 1 + m)).status ≠ "ACTIVE" := by
            have e : i + 1 + m = i + (m + 1) := by omega
            rw [e]
            exact hterm
          have hmain := ih (i + 1) (obs + 1) (q + 1) (t + p) f hrun2 hterm2 (by omega)
          have hstep :
              pollLoopAux acts p (f + 1) i obs q t =
                pollLoopAux acts p f (i + 1) (obs + 1) (q + 1) (t + p) := by
            simp [pollLoopAux, h0]
          rw [hstep, hmain]
          have e1 : i + 1 + m = i + (m + 1) := by omega
          have e2 : obs + 1 + m = obs + (m + 1) := by omega
          have e3 : q + 1 + m = q + (m + 1) := by omega
          have e4 : t + p + m * p = t + (m + 1) * p := by ring
          rw [e1, e2, e3, e4]

/-- On an all-ACTIVE stream the loop body never exits, whatever the fuel
and the starting counters. -/
theorem pollLoopAux_allActive (acts : Nat → FlowAction) (p : Nat)
    (h : ∀ i, (acts i).status = "ACTIVE") :
    ∀ fuel i obs q t, pollLoopAux acts p fuel i obs q t = none := by
  intro fuel
  induction fuel with
  | zero => intro i obs q t; simp [pollLoopAux, h i]
  | succ f ih => intro i obs q t; simp [pollLoopAux, h i, ih]

/-! ## Claim theorems -/

/-- C1: if the remote status service reports a running (ACTIVE) status
exactly N times and then a terminal status, the poll loop terminates (under
any iteration budget of at least N), the number of status values obtained
from the service is N + 1 (the run_flow response plus the N polls), the
loop sleeps N times, and the total time slept is N times the poll interval;
the poll interval is 5 in the main notebook and 2 in the variant. -/
theorem awaitCompletion_terminates_and_counts (acts : Nat → FlowAction) (p N : Nat)
    (hrun : ∀ j, j < N → (acts j).status = "ACTIVE")
    (hterm : (acts N).status ≠ "ACTIVE") :
    (∀ fuel, N ≤ fuel →
      awaitCompletion acts p fuel = some ⟨acts N, N + 1, N, N * p⟩)
    ∧ pollIntervalMain = 5 ∧ pollIntervalVariant = 2 := by
  refine ⟨?_, rfl, rfl⟩
  intro fuel hfuel
  have hrun2 : ∀ j, j < N → (acts (0 + j)).status = "ACTIVE" := by
    intro j hj
    rw [Nat.zero_add]
    exact hrun j hj
  have hterm2 : (acts (0 + N)).status ≠ "ACTIVE" := by
    rw [Nat.zero_add]
    exact hterm
  have h := pollLoopAux_run acts p N 0 1 0 0 fuel hrun2 hterm2 hfuel
  rw [awaitCompletion, h]
  rw [Nat.zero_add, Nat.zero_add, Nat.add_comm 1 N]

/-- Stream for the C1 witness: ACTIVE twice, then SUCCEEDED. -/
def actsC1 : Nat → FlowAction
  | 0 => ⟨"ACTIVE", Json.str "started"⟩
  | 1 => ⟨"ACTIVE", Json.str "still moving files"⟩
  | _ => ⟨"SUCCEEDED", Json.str "final payload"⟩

theorem awaitCompletion_terminates_and_counts_witness :
    awaitCompletion actsC1 5 2 =
      some ⟨⟨"SUCCEEDED", Json.str "final payload"⟩, 3, 2, 10⟩ :=
  (awaitCompletion_terminates_and_counts actsC1 5 2
    (by decide) (by decide)).1 2 (by decide)

/-- C2: once the poll loop observes a terminal (non-ACTIVE) status it
issues no further status queries and never re-enters the running state: on
a stream whose first terminal response is at position k, the total number
of queries the loop issues is exactly k (so the number of queries after the
first terminal observation is zero), and the whole outcome is unchanged
under any modification of the responses after position k. -/
theorem poll_stops_at_first_terminal (acts acts2 : Nat → FlowAction) (p k fuel : Nat)
    (hrun : ∀ j, j < k → (acts j).status = "ACTIVE")
    (hterm : (acts k).status ≠ "ACTIVE")
    (hagree : ∀ i, i ≤ k → acts2 i = acts i)
    (hfuel : k ≤ fuel) :
    (awaitCompletion acts p fuel).map PollOutcome.statusQueries = some k
    ∧ awaitCompletion acts2 p fuel = awaitCompletion acts p fuel := by
  have hrun0 : ∀ j, j < k → (acts (0 + j)).status = "ACTIVE" := by
    intro j hj
    rw [Nat.zero_add]
    exact hrun j hj
  have hterm0 : (acts (0 + k)).status ≠ "ACTIVE" := by
    rw [Nat.zero_add]
    exact hterm
  have h := pollLoopAux_run acts p k 0 1 0 0 fuel hrun0 hterm0 hfuel
  have hrun2 : ∀ j, j < k → (acts2 (0 + j)).status = "ACTIVE" := by
    intro j hj
    rw [Nat.zero_add, hagree j (Nat.le_of_lt hj)]
    exact hrun j hj
  have hterm2 : (acts2 (0 + k)).status ≠ "ACTIVE" := by
    rw [Nat.zero_add, hagree k (Nat.le_refl k)]
    exact hterm
  have h2 := pollLoopAux_run acts2 p k 0 1 0 0 fuel hrun2 hterm2 hfuel
  constructor
  · rw [awaitCompletion, h]
    simp
  · rw [awaitCompletion, awaitCompletion, h, h2, Nat.zero_add, Nat.zero_add,
      hagree k (Nat.le_refl k)]

/-- Stream for the C2 witness: one ACTIVE response, then FAILED. -/
def actsC2 : Nat → FlowAction
  | 0 => ⟨"ACTIVE", Json.str "started"⟩
  | _ => ⟨"FAILED", Json.str "failure payload"⟩

/-- Second stream for the C2 witness: agrees with `actsC2` up to the first
terminal observation and then answers ACTIVE forever; the loop never sees
the difference. -/
def actsC2b : Nat → FlowAction
  | 0 => ⟨"ACTIVE", Json.str "started"⟩
  | 1 => ⟨"FAILED", Json.str "failure payload"⟩
  | _ => ⟨"ACTIVE", Json.str "never observed"⟩

theorem poll_stops_at_first_terminal_witness :
    (awaitCompletion actsC2 3 9).map PollOutcome.statusQueries = some 1
    ∧ awaitCompletion actsC2b 3 9 = awaitCompletion actsC2 3 9 :=
  poll_stops_at_first_terminal actsC2 actsC2b 3 1 9
    (by decide) (by decide)
    (fun i hi =>
      match i, hi with
      | 0, _ => rfl
      | 1, _ => rfl)
    (by decide)

/-- C3: the waiter returns the final status payload as a value on every
terminal status, FAILED and CANCELED included: whenever the stream reaches
a first non-ACTIVE response, the result is `some` outcome whose action is
exactly that response — the embedding of the loop has no raising branch at
all, so failure and cancellation are handed back to the caller, never
raised. -/
theorem awaitCompletion_returns_final_payload (acts : Nat → FlowAction) (p k fuel : Nat)
    (hrun : ∀ j, j < k → (acts j).status = "ACTIVE")
    (hterm : (acts k).status ≠ "ACTIVE")
    (hfuel : k ≤ fuel) :
    (awaitCompletion acts p fuel).map PollOutcome.action = some (acts k) := by
  have hrun0 : ∀ j, j < k → (acts (0 + j)).status = "ACTIVE" := by
    intro j hj
    rw [Nat.zero_add]
    exact hrun j hj
  have hterm0 : (acts (0 + k)).status ≠ "ACTIVE" := by
    rw [Nat.zero_add]
    exact hterm
  have h := pollLoopAux_run acts p k 0 1 0 0 fuel hrun0 hterm0 hfuel
  rw [awaitCompletion, h, Nat.zero_add]
  rfl

/-- Stream for the first half of the C3 witness: ACTIVE once, then FAILED. -/
def actsC3f : Nat → FlowAction
  | 0 => ⟨"ACTIVE", Json.str "started"⟩
  | _ => ⟨"FAILED", Json.str "failure details"⟩

/-- Stream for the second half of the C3 witness: CANCELED immediately. -/
def actsC3c : Nat → FlowAction := fun _ => ⟨"CANCELED", Json.str "cancellation details"⟩

theorem awaitCompletion_returns_final_payload_witness :
    (awaitCompletion actsC3f 5 4).map PollOutcome.action
      = some ⟨"FAILED", Json.str "failure details"⟩
    ∧ (awaitCompletion actsC3c 5 4).map PollOutcome.action
      = some ⟨"CANCELED", Json.str "cancellation details"⟩ :=
  ⟨awaitCompletion_returns_final_payload actsC3f 5 1 4 (by decide) (by decide) (by decide),
   awaitCompletion_returns_final_payload actsC3c 5 0 4 (by decide) (by decide) (by decide)⟩

/-- C4: the poll loop has no built-in timeout and no maximum-attempts
ceiling: on a stream whose every response is ACTIVE the waiter terminates
under no iteration budget whatsoever — the number of polls is unbounded. -/
theorem awaitCompletion_never_terminates_on_active (acts : Nat → FlowAction) (p : Nat)
    (h : ∀ i, (acts i).status = "ACTIVE") :
    ∀ fuel, awaitCompletion acts p fuel = none := by
  intro fuel
  exact pollLoopAux_allActive acts p h fuel 0 1 0 0

/-- Stream for the C4 witness: ACTIVE forever. -/
def actsC4 : Nat → FlowAction := fun _ => ⟨"ACTIVE", Json.str "still running"⟩

theorem awaitCompletion_never_terminates_on_active_witness :
    awaitCompletion actsC4 5 1000 = none :=
  awaitCompletion_never_terminates_on_active actsC4 5 (fun _ => rfl) 1000

/-- C9: the loop distinguishes statuses only by string equality with
ACTIVE: whatever other string the initial run_flow response carries —
SUCCEEDED, FAILED, CANCELED, an unknown vendor status or a misspelling —
the loop treats it as terminal and exits at once, with one status
observation (the initial one), zero status queries and zero time slept,
returning the initial payload. -/
theorem nonactive_initial_status_is_terminal (acts : Nat → FlowAction) (p fuel : Nat)
    (h : (acts 0).status ≠ "ACTIVE") :
    awaitCompletion acts p fuel = some ⟨acts 0, 1, 0, 0⟩ := by
  have hrun0 : ∀ j, j < 0 → (acts (0 + j)).status = "ACTIVE" := by
    intro j hj
    exact absurd hj (Nat.not_lt_zero j)
  have hterm0 : (acts (0 + 0)).status ≠ "ACTIVE" := h
  have hmain := pollLoopAux_run acts p 0 0 1 0 0 fuel hrun0 hterm0 (Nat.zero_le fuel)
  rw [awaitCompletion, hmain]
  simp

/-- Stream for the C9 witness: a misspelled vendor status up front; the
later ACTIVE responses are never requested. -/
def actsC9 : Nat → FlowAction
  | 0 => ⟨"AKTIVE", Json.str "misspelled status payload"⟩
  | _ => ⟨"ACTIVE", Json.str "never polled"⟩

theorem nonactive_initial_status_is_terminal_witness :
    awaitCompletion actsC9 5 50
      = some ⟨⟨"AKTIVE", Json.str "misspelled status payload"⟩, 1, 0, 0⟩ :=
  nonactive_initial_status_is_terminal actsC9 5 50 (by decide)

/-- C5: extractResultField fails with an error naming the requested step
(Python KeyError, the NotFoundError of the spec) when the step is absent
from the payload, fails with an error naming the field when the step is
present but the field absent from its result bag, and returns exactly the
stored value when step and field are both present — a round trip through a
synthetic payload of the service shape. -/
theorem extractResultField_lookup (steps bag : List (String × Json))
    (stepName field : String) :
    (steps.lookup stepName = none →
      extractResultField (mkFinalPayload steps) stepName field
        = Except.error (PyErr.keyError stepName))
    ∧ (steps.lookup stepName = some (mkStepEntry bag) → bag.lookup field = none →
        extractResultField (mkFinalPayload steps) stepName field
          = Except.error (PyErr.keyError field))
    ∧ (∀ v, steps.lookup stepName = some (mkStepEntry bag) → bag.lookup field = some v →
        extractResultField (mkFinalPayload steps) stepName field = Except.ok v) := by
  have base : extractResultField (mkFinalPayload steps) stepName field
      = ((Json.obj steps).get stepName >>= fun s =>
          s.get "details" >>= fun sd => sd.get field) := rfl
  refine ⟨?_, ?_, ?_⟩
  · intro h
    rw [base]
    simp [Json.get, h, bind, Except.bind, List.lookup]
  · intro h hf
    rw [base]
    simp [Json.get, h, mkStepEntry, hf, bind, Except.bind, List.lookup]
  · intro v h hf
    rw [base]
    simp [Json.get, h, mkStepEntry, hf, bind, Except.bind, List.lookup]

/-- Synthetic final payload for the C5 witness: both steps present, with
the access-rule id under the SetPermission details. -/
def samplePayload : Json :=
  mkFinalPayload
    [("MoveFiles", mkStepEntry [("task_id", Json.str "transfer-task-1")]),
     ("SetPermission", mkStepEntry [("access_id", Json.str "access-rule-42")])]

theorem extractResultField_lookup_witness :
    extractResultField samplePayload "SetPermission" "access_id"
      = Except.ok (Json.str "access-rule-42")
    ∧ extractResultField samplePayload "CleanUp" "access_id"
      = Except.error (PyErr.keyError "CleanUp") :=
  ⟨(extractResultField_lookup
      [("MoveFiles", mkStepEntry [("task_id", Json.str "transfer-task-1")]),
       ("SetPermission", mkStepEntry [("access_id", Json.str "access-rule-42")])]
      [("access_id", Json.str "access-rule-42")] "SetPermission" "access_id").2.2
      (Json.str "access-rule-42") rfl rfl,
   (extractResultField_lookup
      [("MoveFiles", mkStepEntry [("task_id", Json.str "transfer-task-1")]),
       ("SetPermission", mkStepEntry [("access_id", Json.str "access-rule-42")])]
      [] "CleanUp" "access_id").1 rfl⟩

/-- C6: the workflow definitions used by this repository are structurally
valid: StartAt names exactly one state of the step mapping, every
non-terminal step's Next reference names an existing state, exactly one
state carries the End marker, and the (deterministic, hence unique) chain
of Next references from the start reaches it. -/
theorem flow_definitions_structurally_valid :
    structurallyValid flow_definition = true
    ∧ structurallyValid flow_definition_variant = true :=
  ⟨rfl, rfl⟩

/-- C7: every placeholder path referenced in the workflow definitions —
each Parameters entry whose key ends in the placeholder marker, all of
which reference $.input.* paths — has a corresponding entry under the
input key of the run input the notebook constructs, whatever identity id
the Auth service returned. -/
theorem flow_input_covers_placeholders (identity_id : String) :
    placeholdersCovered flow_definition (flow_input identity_id) = true
    ∧ placeholdersCovered flow_definition_variant (flow_input_variant identity_id) = true :=
  ⟨rfl, rfl⟩

/-- C8: when the GLOBUS_DATA environment variable is absent at process
start, the token-loading step fails (os.getenv returns None and
base64.b64decode(None) raises TypeError) instead of proceeding, and the
session reaches none of the later remote calls — its call trace is empty,
whatever decoder the token bundle would have been fed to. -/
theorem missing_globus_data_is_fatal (decode : String → Option Json) :
    (notebookSession none decode).1 = Except.error PyErr.typeError
    ∧ (notebookSession none decode).2 = [] :=
  ⟨rfl, rfl⟩

/-- C10: the per-flow authorization cell is idempotent on the scope cache:
when the flow scope is already a key of saved_flow_scopes the cell performs
no token exchange and returns the cache unchanged; and get_flow_authorizer
reads only the cached entry for the requested scope — its result is the
same over any cache with the same entry for that scope — and mutates
nothing (it returns no cache at all). -/
theorem flow_scope_cache_idempotent (saved : List (String × TokenInfo))
    (flow_scope : String) (exchange : Unit → TokenInfo)
    (h : (saved.lookup flow_scope).isSome = true) :
    authorize_flow_scope saved flow_scope exchange = (saved, 0)
    ∧ ∀ saved2 : List (String × TokenInfo),
        saved2.lookup flow_scope = saved.lookup flow_scope →
        get_flow_authorizer saved2 flow_scope = get_flow_authorizer saved flow_scope := by
  constructor
  · simp [authorize_flow_scope, h]
  · intro saved2 hagree
    simp [get_flow_authorizer, hagree]

theorem flow_scope_cache_idempotent_witness :
    authorize_flow_scope [("scope-a", ⟨"tok-1"⟩)] "scope-a" (fun _ => ⟨"tok-fresh"⟩)
      = ([("scope-a", ⟨"tok-1"⟩)], 0)
    ∧ get_flow_authorizer [("scope-b", ⟨"tok-other"⟩), ("scope-a", ⟨"tok-1"⟩)] "scope-a"
      = get_flow_authorizer [("scope-a", ⟨"tok-1"⟩)] "scope-a" :=
  ⟨(flow_scope_cache_idempotent [("scope-a", ⟨"tok-1"⟩)] "scope-a"
      (fun _ => ⟨"tok-fresh"⟩) rfl).1,
   (flow_scope_cache_idempotent [("scope-a", ⟨"tok-1"⟩)] "scope-a"
      (fun _ => ⟨"tok-fresh"⟩) rfl).2
     [("scope-b", ⟨"tok-other"⟩), ("scope-a", ⟨"tok-1"⟩)] rfl⟩
